import Mathlib

/-!
Shallow embedding of `TheiaProk-amr-visualizer.py`, a single-script pipeline:
load a TSV of TB samples, drop rows missing the country or resistance-type
field, aggregate per-country counts and percentages, attach ISO Alpha-3
codes (dropping countries whose lookup fails), geocode country names with
two hard-coded overrides and a rate-limit sleep, apply a per-type longitude
jitter, filter to seven resistance types and render one marker trace per
type with a shared size reference.

Machine floats of the script are modelled by exact rationals `ℚ`; the
external services (`pycountry.countries.lookup`, `geolocator.geocode`) are
parameters of the pipeline; the `sleep(1)` calls and geocoder calls are
recorded in an explicit event trace.
-/

namespace AmrVis

/-- A raw input row of the TSV; only the two columns the script uses are
relevant, each possibly missing (NaN). -/
structure RawRow where
  Country_of_sample_collection : Option String
  tbprofiler_dr_type : Option String
deriving DecidableEq

/-- A row after `df.dropna(subset=["tbprofiler_dr_type", "Country_of_sample_collection"])`:
both fields present. -/
structure Row where
  Country_of_sample_collection : String
  tbprofiler_dr_type : String
deriving DecidableEq

/-- The step `df.dropna(subset=["tbprofiler_dr_type", "Country_of_sample_collection"])` :
keep exactly the rows where both fields are present. -/
def dropnaRows (rows : List RawRow) : List RawRow :=
  rows.filter fun r =>
    decide (r.tbprofiler_dr_type ≠ none) && decide (r.Country_of_sample_collection ≠ none)

/-- The cleaned table, with the two fields unwrapped (a row survives
`dropna` exactly when both are `some`). -/
def cleanRows (rows : List RawRow) : List Row :=
  rows.filterMap fun r =>
    match r.Country_of_sample_collection, r.tbprofiler_dr_type with
    | some c, some t => some ⟨c, t⟩
    | _, _ => none

/-- The grouping `df.groupby("Country_of_sample_collection").size()` evaluated at country `c`:
the number of cleaned rows whose country is `c` (column `total_samples`). -/
def total_samples_of (df : List Row) (c : String) : Nat :=
  (df.filter fun r => decide (r.Country_of_sample_collection = c)).length

/-- The grouping `df.groupby(["Country_of_sample_collection", "tbprofiler_dr_type"]).size()`
evaluated at key `(c, t)`: the number of cleaned rows with country `c` and
resistance type `t` (column `count`). -/
def pair_count (df : List Row) (c t : String) : Nat :=
  (df.filter fun r =>
    decide (r.Country_of_sample_collection = c) && decide (r.tbprofiler_dr_type = t)).length

/-- One row of the `counts` dataframe after the merge with `total_per_country`
and the percent computation. -/
structure AggRow where
  Country_of_sample_collection : String
  tbprofiler_dr_type : String
  count : Nat
  total_samples : Nat
  percent : ℚ
deriving DecidableEq

/-- The aggregate row of group key `r`: the group size, the merged
per-country total and `percent = (count / total_samples) * 100`. -/
def aggRowOf (df : List Row) (r : Row) : AggRow :=
  { Country_of_sample_collection := r.Country_of_sample_collection
    tbprofiler_dr_type := r.tbprofiler_dr_type
    count := pair_count df r.Country_of_sample_collection r.tbprofiler_dr_type
    total_samples := total_samples_of df r.Country_of_sample_collection
    percent :=
      ((pair_count df r.Country_of_sample_collection r.tbprofiler_dr_type : ℚ) /
        (total_samples_of df r.Country_of_sample_collection : ℚ)) * 100 }

/-- The `counts` dataframe: one row per distinct (country, type) pair of the
cleaned table. -/
def countsAgg (df : List Row) : List AggRow :=
  df.dedup.map (aggRowOf df)

/-- The dict `jitter_map` of the script with the `.get(·, 0.0)` default. -/
def jitter_map (t : String) : ℚ :=
  if t = "Sensitive" then 0.0
  else if t = "RR-TB" then 0.2
  else if t = "MDR-TB" then 0.4
  else if t = "Pre-XDR-TB" then 0.6
  else if t = "HR-TB" then 0.8
  else if t = "XDR-TB" then 1.0
  else if t = "Other" then 1.2
  else 0.0

/-- The function `get_iso3`: `pycountry.countries.lookup(name).alpha_3` with every
exception converted to `None`. The external library is the parameter
`lookup : String → Option String` (already `none` on failure). -/
def get_iso3 (lookup : String → Option String) (name : String) : Option String :=
  lookup name

/-- The steps `counts["iso_alpha"] = counts[...].apply(get_iso3); counts = counts.dropna(subset=["iso_alpha"])`:
each aggregate row paired with its ISO code, rows with a failed lookup dropped. -/
def withIso (lookup : String → Option String) (rows : List AggRow) : List (AggRow × String) :=
  rows.filterMap fun r =>
    (get_iso3 lookup r.Country_of_sample_collection).map fun code => (r, code)

/-- A latitude/longitude pair. -/
structure Coord where
  lat : ℚ
  lon : ℚ
deriving DecidableEq

/-- Observable effects of the geocoding loop: one external `geolocator.geocode`
call, or one `sleep(1)`. -/
inductive GeoEvent where
  | lookup (name : String)
  | sleep
deriving DecidableEq

/-- Outcome of one `geolocator.geocode(country)` call: a location, no
location (`None`), or a raised exception. -/
inductive GeoOutcome where
  | found (loc : Coord)
  | missing
  | raised
deriving DecidableEq

/-- One iteration of the geocoding loop for one unique country name:
hard-coded overrides for "Georgia" and "Sudan" `continue` before the sleep;
otherwise one external lookup whose result is cached only when a location is
returned, any exception swallowed, and a `sleep(1)` afterwards in every
non-override case. Returns the cache entry (`none` = not cached) and the
event trace of the iteration. -/
def geocode_one (geo : String → GeoOutcome) (country : String) :
    Option Coord × List GeoEvent :=
  if country = "Georgia" then (some ⟨42.3154, 43.3569⟩, [])
  else if country = "Sudan" then (some ⟨12.8628, 30.2176⟩, [])
  else
    match geo country with
    | GeoOutcome.found loc => (some loc, [GeoEvent.lookup country, GeoEvent.sleep])
    | GeoOutcome.missing => (none, [GeoEvent.lookup country, GeoEvent.sleep])
    | GeoOutcome.raised => (none, [GeoEvent.lookup country, GeoEvent.sleep])

/-- Helper for `pandas.unique` order: first occurrences, accumulating the names already
seen. -/
def uniqueAux (seen : List String) : List String → List String
  | [] => []
  | a :: l => if a ∈ seen then uniqueAux seen l else a :: uniqueAux (a :: seen) l

/-- The column `counts["Country_of_sample_collection"].unique()`. -/
def uniqueNames (l : List String) : List String :=
  uniqueAux [] l

/-- The `country_coords` dict built by the geocoding loop, as an association
list over the unique country names. -/
def build_coords (geo : String → GeoOutcome) : List String → List (String × Coord)
  | [] => []
  | c :: rest =>
    match (geocode_one geo c).1 with
    | some loc => (c, loc) :: build_coords geo rest
    | none => build_coords geo rest

/-- The full event trace of the geocoding loop. -/
def geo_events (geo : String → GeoOutcome) (countries : List String) : List GeoEvent :=
  (countries.map fun c => (geocode_one geo c).2).flatten

/-- The function `apply_coords`: look the row's country up in the cache with default
lat 0.0, lon 30.0, and add the per-type jitter to the longitude. -/
def apply_coords (cc : String → Option Coord) (r : AggRow) : Coord :=
  let coords := (cc r.Country_of_sample_collection).getD ⟨0.0, 30.0⟩
  let jitter := jitter_map r.tbprofiler_dr_type
  ⟨coords.lat, coords.lon + jitter⟩

/-- A fully-assembled row of `counts` after `counts[["lat", "lon"]] = counts.apply(apply_coords, axis=1)`. -/
structure PlotPoint where
  Country_of_sample_collection : String
  tbprofiler_dr_type : String
  count : Nat
  total_samples : Nat
  percent : ℚ
  iso_alpha : String
  lat : ℚ
  lon : ℚ
deriving DecidableEq

/-- The plot point of one aggregate row: the row's columns together with the
`lat`/`lon` pair returned by `apply_coords`. -/
def plot_point_of (cc : String → Option Coord) (rc : AggRow × String) : PlotPoint :=
  { Country_of_sample_collection := rc.1.Country_of_sample_collection
    tbprofiler_dr_type := rc.1.tbprofiler_dr_type
    count := rc.1.count
    total_samples := rc.1.total_samples
    percent := rc.1.percent
    iso_alpha := rc.2
    lat := (apply_coords cc rc.1).lat
    lon := (apply_coords cc rc.1).lon }

/-- Attach coordinates to every row (a per-row map; no row is dropped here). -/
def with_coords (cc : String → Option Coord) (rows : List (AggRow × String)) :
    List PlotPoint :=
  rows.map (plot_point_of cc)

/-- The list `selected_types` of the script. -/
def selected_types : List String :=
  ["Sensitive", "Other", "HR-TB", "RR-TB", "MDR-TB", "Pre-XDR-TB", "XDR-TB"]

/-- The step `counts = counts[counts["tbprofiler_dr_type"].isin(selected_types)]`. -/
def filter_selected (pts : List PlotPoint) : List PlotPoint :=
  pts.filter fun p => decide (p.tbprofiler_dr_type ∈ selected_types)

/-- The whole data pipeline of the script, from raw rows to the rows handed
to the plotting loop, parameterised by the two external services. -/
def pipeline (lookup : String → Option String) (geo : String → GeoOutcome)
    (rows : List RawRow) : List PlotPoint :=
  let df := cleanRows rows
  let counts := countsAgg df
  let countsI := withIso lookup counts
  let names := uniqueNames (countsI.map fun rc => rc.1.Country_of_sample_collection)
  let cc := fun c => (build_coords geo names).lookup c
  filter_selected (with_coords cc countsI)

/-- One `go.Scattergeo` trace: its legend name, its data rows and the
`sizeref` of its markers (`none` models the NaN arising from `max()` of an
empty column). -/
structure Trace where
  name : String
  points : List PlotPoint
  sizeref : Option ℚ
deriving DecidableEq

/-- The value `counts["percent"].max()` as an `Option` (`none` for the empty column). -/
def max_percent (pts : List PlotPoint) : Option ℚ :=
  (pts.map fun p => p.percent).max?

/-- The `for drug in selected_types: fig.add_trace(...)` loop: one trace per
selected type, with `sizeref = 2. * max_percent / (40. ** 2)`. -/
def traces (pts : List PlotPoint) : List Trace :=
  selected_types.map fun drug =>
    { name := drug
      points := pts.filter fun p => decide (p.tbprofiler_dr_type = drug)
      sizeref := (max_percent pts).map fun m => 2 * m / (40 : ℚ) ^ 2 }

/-! ### Counting helpers -/

/-- Number of occurrences of `a` in `l`. -/
def occCount {α : Type} [DecidableEq α] (a : α) (l : List α) : Nat :=
  (l.filter fun x => decide (x = a)).length

theorem occCount_cons {α : Type} [DecidableEq α] (a b : α) (l : List α) :
    occCount a (b :: l) = occCount a l + (if b = a then 1 else 0) := by
  by_cases h : b = a <;> simp [occCount, List.filter_cons, h, Nat.add_comm]

theorem occCount_eq_zero {α : Type} [DecidableEq α] {a : α} {s : List α}
    (h : a ∉ s) : occCount a s = 0 := by
  induction s with
  | nil => rfl
  | cons b s ih =>
      have hba : b ≠ a := fun e => h (e ▸ List.mem_cons_self b s)
      have has : a ∉ s := fun m => h (List.mem_cons_of_mem _ m)
      simp [occCount_cons, hba, ih has]

theorem occCount_eq_one {α : Type} [DecidableEq α] {a : α} {s : List α}
    (hs : s.Nodup) (ha : a ∈ s) : occCount a s = 1 := by
  induction s with
  | nil => cases ha
  | cons b s ih =>
      rcases List.mem_cons.mp ha with h | h
      · subst h
        have hbs : a ∉ s := (List.nodup_cons.mp hs).1
        simp [occCount_cons, occCount_eq_zero hbs]
      · have hba : b ≠ a := by
          intro e
          exact (List.nodup_cons.mp hs).1 (e ▸ h)
        simp [occCount_cons, hba, ih (List.nodup_cons.mp hs).2 h]

theorem sum_map_add_nat {α : Type} (l : List α) (f g : α → Nat) :
    (l.map fun x => f x + g x).sum = (l.map f).sum + (l.map g).sum := by
  induction l with
  | nil => rfl
  | cons a l ih => simp only [List.map_cons, List.sum_cons, ih]; omega

theorem sum_map_indicator {α : Type} [DecidableEq α] (s : List α) (a : α) :
    (s.map fun x => if x = a then 1 else 0).sum = occCount a s := by
  induction s with
  | nil => rfl
  | cons b s ih => simp [occCount_cons, ih, Nat.add_comm]

/-- Summing, over a duplicate-free index list `s` that covers the elements
of `l` selected by `P`, the multiplicity of each index in `l`, yields the
number of selected elements of `l`. -/
theorem sum_occCount {α : Type} [DecidableEq α] (l : List α) (P : α → Bool)
    (s : List α) (hs : s.Nodup) (hmem : ∀ x ∈ l, P x = true → x ∈ s)
    (hP : ∀ x ∈ s, P x = true) :
    (s.map fun a => occCount a l).sum = (l.filter P).length := by
  induction l with
  | nil => simp [occCount]
  | cons b l ih =>
      have hmem2 : ∀ x ∈ l, P x = true → x ∈ s := fun x hx =>
        hmem x (List.mem_cons_of_mem _ hx)
      have step : (s.map fun a => occCount a (b :: l))
          = s.map fun a => occCount a l + (if a = b then 1 else 0) := by
        refine List.map_congr_left fun a _ => ?_
        rw [occCount_cons]
        congr 1
        by_cases h : a = b
        · subst h; rfl
        · rw [if_neg h, if_neg fun e => h e.symm]
      rw [step, sum_map_add_nat, sum_map_indicator, ih hmem2]
      cases hb : P b with
      | true =>
          have : b ∈ s := hmem b (List.mem_cons_self b l) hb
          simp [List.filter_cons, hb, occCount_eq_one hs this, Nat.add_comm]
      | false =>
          have : b ∉ s := fun m => by rw [hP b m] at hb; cases hb
          simp [List.filter_cons, hb, occCount_eq_zero this]

/-! ### Aggregation lemmas -/

theorem pair_count_eq_occ (df : List Row) (r : Row) :
    pair_count df r.Country_of_sample_collection r.tbprofiler_dr_type
      = occCount r df := by
  unfold pair_count occCount
  congr 1
  refine List.filter_congr fun x _ => ?_
  cases x with
  | mk xc xt =>
      cases r with
      | mk rc rt => simp [Row.mk.injEq]

theorem filter_countsAgg (df : List Row) (c : String) :
    (countsAgg df).filter (fun ar => decide (ar.Country_of_sample_collection = c))
      = ((df.dedup.filter fun r => decide (r.Country_of_sample_collection = c)).map
          (aggRowOf df)) := by
  unfold countsAgg
  rw [List.filter_map]
  rfl

theorem sum_occ_dedup_filter (df : List Row) (c : String) :
    ((df.dedup.filter fun r => decide (r.Country_of_sample_collection = c)).map
        fun r => occCount r df).sum
      = total_samples_of df c :=
  sum_occCount df _ _
    ((df.nodup_dedup).filter _)
    (fun _x hx hPx => List.mem_filter.mpr ⟨List.mem_dedup.mpr hx, hPx⟩)
    (fun _x hx => (List.mem_filter.mp hx).2)

/-- The raw counts of the aggregate rows of country `c` sum to the
per-country total of `c`. -/
theorem sum_counts_eq_total (df : List Row) (c : String) :
    (((countsAgg df).filter fun ar =>
        decide (ar.Country_of_sample_collection = c)).map AggRow.count).sum
      = total_samples_of df c := by
  rw [filter_countsAgg, List.map_map]
  have hmap : ((df.dedup.filter fun r =>
        decide (r.Country_of_sample_collection = c)).map
          (AggRow.count ∘ aggRowOf df))
      = ((df.dedup.filter fun r =>
        decide (r.Country_of_sample_collection = c)).map fun r => occCount r df) :=
    List.map_congr_left fun r _ => pair_count_eq_occ df r
  rw [hmap, sum_occ_dedup_filter]

theorem total_samples_pos (df : List Row) (c : String)
    (h : ∃ r ∈ df, r.Country_of_sample_collection = c) :
    0 < total_samples_of df c := by
  obtain ⟨r, hr, hc⟩ := h
  exact List.length_pos_of_mem
    (List.mem_filter.mpr ⟨hr, by simp [hc]⟩)

/-! ### Claim theorems: aggregation -/

/-- C1: for every input table and every country `c` appearing in at least
one row with both fields present, the raw counts of the per-(country, type)
groups of `c` sum to the `total_samples` value of the per-country grouping
for `c`. -/
theorem C1_sum_raw_counts_eq_total_samples (rows : List RawRow) (c : String)
    (_h : ∃ r ∈ cleanRows rows, r.Country_of_sample_collection = c) :
    (((countsAgg (cleanRows rows)).filter fun ar =>
        decide (ar.Country_of_sample_collection = c)).map AggRow.count).sum
      = total_samples_of (cleanRows rows) c :=
  sum_counts_eq_total (cleanRows rows) c

theorem C1_witness :
    (∃ r ∈ cleanRows
        [⟨some "Kenya", some "Sensitive"⟩, ⟨some "Kenya", some "MDR-TB"⟩,
         ⟨some "Kenya", some "Sensitive"⟩, ⟨none, some "RR-TB"⟩],
      r.Country_of_sample_collection = "Kenya") ∧
    (((countsAgg (cleanRows
        [⟨some "Kenya", some "Sensitive"⟩, ⟨some "Kenya", some "MDR-TB"⟩,
         ⟨some "Kenya", some "Sensitive"⟩, ⟨none, some "RR-TB"⟩])).filter fun ar =>
        decide (ar.Country_of_sample_collection = "Kenya")).map AggRow.count).sum
      = total_samples_of (cleanRows
        [⟨some "Kenya", some "Sensitive"⟩, ⟨some "Kenya", some "MDR-TB"⟩,
         ⟨some "Kenya", some "Sensitive"⟩, ⟨none, some "RR-TB"⟩]) "Kenya" :=
  ⟨by decide, C1_sum_raw_counts_eq_total_samples _ "Kenya" (by decide)⟩

/-- C2: for every country present after row cleaning, the `percent` values
of all its aggregate rows (before the ISO drop and the seven-type filter)
sum to exactly 100. -/
theorem C2_percents_sum_to_100 (rows : List RawRow) (c : String)
    (h : ∃ r ∈ cleanRows rows, r.Country_of_sample_collection = c) :
    (((countsAgg (cleanRows rows)).filter fun ar =>
        decide (ar.Country_of_sample_collection = c)).map AggRow.percent).sum
      = 100 := by
  set df := cleanRows rows with hdf
  have hTpos : 0 < total_samples_of df c := total_samples_pos df c h
  have hT : ((total_samples_of df c : ℚ)) ≠ 0 := by
    exact_mod_cast hTpos.ne'
  rw [filter_countsAgg, List.map_map]
  have hmap : ((df.dedup.filter fun r =>
        decide (r.Country_of_sample_collection = c)).map
          (AggRow.percent ∘ aggRowOf df))
      = ((df.dedup.filter fun r =>
        decide (r.Country_of_sample_collection = c)).map fun r =>
          (occCount r df : ℚ) * (100 / (total_samples_of df c : ℚ))) := by
    refine List.map_congr_left fun r hr => ?_
    have hc : r.Country_of_sample_collection = c := by
      have := (List.mem_filter.mp hr).2
      simpa using this
    show ((pair_count df r.Country_of_sample_collection r.tbprofiler_dr_type : ℚ) /
        (total_samples_of df r.Country_of_sample_collection : ℚ)) * 100 = _
    rw [pair_count_eq_occ, hc, div_mul_eq_mul_div, mul_div_assoc]
  rw [hmap, List.sum_map_mul_right]
  have hcast : ((df.dedup.filter fun r =>
        decide (r.Country_of_sample_collection = c)).map fun r =>
          ((occCount r df : ℚ))).sum
      = ((((df.dedup.filter fun r =>
        decide (r.Country_of_sample_collection = c)).map fun r =>
          occCount r df).sum : Nat) : ℚ) := by
    rw [Nat.cast_list_sum, List.map_map]
    rfl
  rw [hcast, sum_occ_dedup_filter]
  field_simp

theorem C2_witness :
    (∃ r ∈ cleanRows
        [⟨some "Kenya", some "Sensitive"⟩, ⟨some "Kenya", some "MDR-TB"⟩,
         ⟨some "Kenya", some "Sensitive"⟩, ⟨some "Kenya", some "XDR-TB"⟩],
      r.Country_of_sample_collection = "Kenya") ∧
    (((countsAgg (cleanRows
        [⟨some "Kenya", some "Sensitive"⟩, ⟨some "Kenya", some "MDR-TB"⟩,
         ⟨some "Kenya", some "Sensitive"⟩, ⟨some "Kenya", some "XDR-TB"⟩])).filter fun ar =>
        decide (ar.Country_of_sample_collection = "Kenya")).map AggRow.percent).sum
      = 100 :=
  ⟨by decide, C2_percents_sum_to_100 _ "Kenya" (by decide)⟩

/-- C3: every row of the aggregate has `total_samples ≥ 1`, so the divisor
of the percent computation is nonzero and the division well-defined. -/
theorem C3_total_samples_never_zero (rows : List RawRow) (r : AggRow)
    (h : r ∈ countsAgg (cleanRows rows)) :
    1 ≤ r.total_samples ∧ ((r.total_samples : ℚ)) ≠ 0 := by
  obtain ⟨p, hp, hpr⟩ := List.mem_map.mp h
  subst hpr
  have hpd : p ∈ cleanRows rows := List.mem_dedup.mp hp
  have hpos : 0 < total_samples_of (cleanRows rows) p.Country_of_sample_collection :=
    total_samples_pos _ _ ⟨p, hpd, rfl⟩
  refine ⟨hpos, ?_⟩
  exact_mod_cast hpos.ne'

theorem C3_witness :
    ((aggRowOf (cleanRows [⟨some "Kenya", some "Sensitive"⟩]) ⟨"Kenya", "Sensitive"⟩)
        ∈ countsAgg (cleanRows [⟨some "Kenya", some "Sensitive"⟩])) ∧
    1 ≤ (aggRowOf (cleanRows [⟨some "Kenya", some "Sensitive"⟩])
        ⟨"Kenya", "Sensitive"⟩).total_samples ∧
    (((aggRowOf (cleanRows [⟨some "Kenya", some "Sensitive"⟩])
        ⟨"Kenya", "Sensitive"⟩).total_samples : ℚ)) ≠ 0 :=
  ⟨List.mem_singleton.mpr rfl,
   C3_total_samples_never_zero [⟨some "Kenya", some "Sensitive"⟩] _
     (List.mem_singleton.mpr rfl)⟩

/-! ### Claim theorems: ISO drop, coordinates, type filter -/

theorem mem_withIso_iso_some {lookup : String → Option String} {aggs : List AggRow}
    {rc : AggRow × String} (h : rc ∈ withIso lookup aggs) :
    lookup rc.1.Country_of_sample_collection = some rc.2 := by
  obtain ⟨a, _ha, hfa⟩ := List.mem_filterMap.mp h
  unfold get_iso3 at hfa
  obtain ⟨code, hcode, hrc⟩ := Option.map_eq_some'.mp hfa
  subst hrc
  exact hcode

/-- C4: a country whose ISO Alpha-3 lookup fails loses every one of its
aggregate rows at the `dropna(subset=["iso_alpha"])` step and never appears
among the rendered plot points. -/
theorem C4_failed_iso_lookup_drops_country (lookup : String → Option String)
    (geo : String → GeoOutcome) (rows : List RawRow) (c : String)
    (h : lookup c = none) :
    (∀ rc ∈ withIso lookup (countsAgg (cleanRows rows)),
        rc.1.Country_of_sample_collection ≠ c) ∧
    (∀ p ∈ pipeline lookup geo rows, p.Country_of_sample_collection ≠ c) := by
  have hiso : ∀ aggs : List AggRow, ∀ rc ∈ withIso lookup aggs,
      rc.1.Country_of_sample_collection ≠ c := by
    intro aggs rc hrc hc
    have := mem_withIso_iso_some hrc
    rw [hc, h] at this
    cases this
  refine ⟨hiso _, ?_⟩
  intro p hp hc
  simp only [pipeline, filter_selected] at hp
  have hp2 := (List.mem_filter.mp hp).1
  obtain ⟨rc, hrc, hrcp⟩ := List.mem_map.mp hp2
  apply hiso _ rc hrc
  rw [← hc, ← hrcp]
  rfl

theorem C4_witness :
    (∀ rc ∈ withIso (fun _ => none)
        (countsAgg (cleanRows [⟨some "Atlantis", some "Sensitive"⟩])),
      rc.1.Country_of_sample_collection ≠ "Atlantis") ∧
    (∀ p ∈ pipeline (fun _ => none) (fun _ => GeoOutcome.missing)
        [⟨some "Atlantis", some "Sensitive"⟩],
      p.Country_of_sample_collection ≠ "Atlantis") :=
  C4_failed_iso_lookup_drops_country (fun _ => none) (fun _ => GeoOutcome.missing)
    [⟨some "Atlantis", some "Sensitive"⟩] "Atlantis" rfl

/-- C5: a row whose country has no cached coordinate is not dropped: the
coordinate stage maps every row to exactly one plot point, and such a row's
point sits at latitude 0 and longitude 30 plus its type's jitter. -/
theorem C5_missing_coords_use_default (cc : String → Option Coord)
    (rows : List (AggRow × String)) (rc : AggRow × String)
    (hmem : rc ∈ rows) (h : cc rc.1.Country_of_sample_collection = none) :
    (with_coords cc rows).length = rows.length ∧
    plot_point_of cc rc ∈ with_coords cc rows ∧
    (plot_point_of cc rc).lat = 0 ∧
    (plot_point_of cc rc).lon = 30 + jitter_map rc.1.tbprofiler_dr_type := by
  refine ⟨List.length_map _ _, List.mem_map_of_mem _ hmem, ?_, ?_⟩
  · show (apply_coords cc rc.1).lat = 0
    simp [apply_coords, h]
    norm_num
  · show (apply_coords cc rc.1).lon = 30 + jitter_map rc.1.tbprofiler_dr_type
    simp [apply_coords, h]
    norm_num

theorem C5_witness :
    (with_coords (fun _ => none) [(⟨"Kenya", "MDR-TB", 1, 1, 100⟩, "KEN")]).length
        = [((⟨"Kenya", "MDR-TB", 1, 1, 100⟩ : AggRow), "KEN")].length ∧
    plot_point_of (fun _ => none) (⟨"Kenya", "MDR-TB", 1, 1, 100⟩, "KEN")
        ∈ with_coords (fun _ => none) [(⟨"Kenya", "MDR-TB", 1, 1, 100⟩, "KEN")] ∧
    (plot_point_of (fun _ => none) (⟨"Kenya", "MDR-TB", 1, 1, 100⟩, "KEN")).lat = 0 ∧
    (plot_point_of (fun _ => none) (⟨"Kenya", "MDR-TB", 1, 1, 100⟩, "KEN")).lon
        = 30 + jitter_map "MDR-TB" :=
  C5_missing_coords_use_default (fun _ => none)
    [(⟨"Kenya", "MDR-TB", 1, 1, 100⟩, "KEN")] (⟨"Kenya", "MDR-TB", 1, 1, 100⟩, "KEN")
    (List.mem_singleton.mpr rfl) rfl

/-- C6: the jitter table is the fixed map Sensitive→0.0, RR-TB→0.2,
MDR-TB→0.4, Pre-XDR-TB→0.6, HR-TB→0.8, XDR-TB→1.0, Other→1.2, every other
label→0.0, and the offset is added to the resolved base longitude while the
latitude is kept. -/
theorem C6_jitter_table (s : String) (cc : String → Option Coord)
    (r : AggRow) (base : Coord) :
    jitter_map "Sensitive" = 0 ∧ jitter_map "RR-TB" = 0.2 ∧
    jitter_map "MDR-TB" = 0.4 ∧ jitter_map "Pre-XDR-TB" = 0.6 ∧
    jitter_map "HR-TB" = 0.8 ∧ jitter_map "XDR-TB" = 1 ∧
    jitter_map "Other" = 1.2 ∧
    (s ∉ selected_types → jitter_map s = 0) ∧
    (cc r.Country_of_sample_collection = some base →
      apply_coords cc r = ⟨base.lat, base.lon + jitter_map r.tbprofiler_dr_type⟩) := by
  refine ⟨by simp [jitter_map]; norm_num, by simp [jitter_map],
    by simp [jitter_map], by simp [jitter_map],
    by simp [jitter_map], by simp [jitter_map]; norm_num,
    by simp [jitter_map], ?_, ?_⟩
  · intro hs
    simp only [selected_types, List.mem_cons, List.not_mem_nil, or_false, not_or] at hs
    obtain ⟨h1, h2, h3, h4, h5, h6, h7⟩ := hs
    simp [jitter_map, h1, h2, h3, h4, h5, h6, h7]
    norm_num
  · intro hcc
    simp [apply_coords, hcc]

theorem C6_witness :
    jitter_map "Unknown" = 0 ∧
    apply_coords (fun _ => some ⟨1, 2⟩) ⟨"Kenya", "MDR-TB", 1, 1, 100⟩
      = ⟨1, 2 + jitter_map "MDR-TB"⟩ := by
  have h := C6_jitter_table "Unknown" (fun _ => some ⟨1, 2⟩)
    ⟨"Kenya", "MDR-TB", 1, 1, 100⟩ ⟨1, 2⟩
  exact ⟨h.2.2.2.2.2.2.2.1 (by decide), h.2.2.2.2.2.2.2.2 rfl⟩

/-- C7: every rendered plot point and every trace carries one of exactly the
seven selected resistance types, and any point with another label is
excluded by the `isin(selected_types)` filter even if it reached that
stage. -/
theorem C7_only_seven_types_rendered (lookup : String → Option String)
    (geo : String → GeoOutcome) (rows : List RawRow) :
    (∀ p ∈ pipeline lookup geo rows, p.tbprofiler_dr_type ∈ selected_types) ∧
    (∀ tr ∈ traces (pipeline lookup geo rows),
        tr.name ∈ selected_types ∧
        ∀ p ∈ tr.points, p.tbprofiler_dr_type = tr.name) ∧
    (∀ pts : List PlotPoint, ∀ p ∈ pts,
        p.tbprofiler_dr_type ∉ selected_types → p ∉ filter_selected pts) := by
  refine ⟨?_, ?_, ?_⟩
  · intro p hp
    simp only [pipeline, filter_selected] at hp
    have := (List.mem_filter.mp hp).2
    simpa using this
  · intro tr htr
    obtain ⟨drug, hdrug, rfl⟩ := List.mem_map.mp htr
    refine ⟨hdrug, ?_⟩
    intro p hp
    have := (List.mem_filter.mp hp).2
    simpa using this
  · intro pts p _hp hlab hmem
    have := (List.mem_filter.mp hmem).2
    simp at this
    exact hlab this

theorem C7_witness :
    (⟨"Kenya", "Weird", 1, 1, 100, "KEN", 0, 30⟩ : PlotPoint)
      ∉ filter_selected [⟨"Kenya", "Weird", 1, 1, 100, "KEN", 0, 30⟩] :=
  (C7_only_seven_types_rendered (fun _ => none) (fun _ => GeoOutcome.missing) []).2.2
    [⟨"Kenya", "Weird", 1, 1, 100, "KEN", 0, 30⟩]
    ⟨"Kenya", "Weird", 1, 1, 100, "KEN", 0, 30⟩
    (List.mem_singleton.mpr rfl) (by decide)

/-! ### Claim theorems: geocoding loop, sizing, same-country geometry -/

theorem geocode_one_events_count {c : String} (geo : String → GeoOutcome)
    (d : String) (hc1 : c ≠ "Georgia") (hc2 : c ≠ "Sudan") :
    ((geocode_one geo d).2).count (GeoEvent.lookup c) = if d = c then 1 else 0 := by
  by_cases hd1 : d = "Georgia"
  · subst hd1
    simp [geocode_one, Ne.symm hc1]
  · by_cases hd2 : d = "Sudan"
    · subst hd2
      simp [geocode_one, Ne.symm hc2]
    · have hev : (geocode_one geo d).2 = [GeoEvent.lookup d, GeoEvent.sleep] := by
        unfold geocode_one
        rw [if_neg hd1, if_neg hd2]
        cases geo d <;> rfl
      rw [hev]
      by_cases hdc : d = c
      · subst hdc
        simp [List.count_cons]
      · simp [List.count_cons, hdc, Ne.symm hdc]

theorem geo_events_count_zero {c : String} (geo : String → GeoOutcome)
    (hc1 : c ≠ "Georgia") (hc2 : c ≠ "Sudan") :
    ∀ names : List String, c ∉ names →
      (geo_events geo names).count (GeoEvent.lookup c) = 0 := by
  intro names
  induction names with
  | nil => intro _; rfl
  | cons n rest ih =>
      intro hmem
      have hn : n ≠ c := fun e => hmem (e ▸ List.mem_cons_self n rest)
      have hrest : c ∉ rest := fun m => hmem (List.mem_cons_of_mem _ m)
      have hih := ih hrest
      simp only [geo_events, List.map_cons, List.flatten_cons, List.count_append]
        at hih ⊢
      rw [geocode_one_events_count geo n hc1 hc2, if_neg hn, hih]

/-- C8: the geocoding loop uses the hard-coded pairs for "Georgia" and
"Sudan" with no lookup and no sleep; for every other distinct name it makes
exactly one external lookup, caches the result only when a location is
returned, swallows errors, and sleeps one second after the lookup whether
or not it succeeded. -/
theorem C8_geocoding_per_country (geo : String → GeoOutcome) (c : String)
    (names : List String) :
    geocode_one geo "Georgia" = (some ⟨42.3154, 43.3569⟩, []) ∧
    geocode_one geo "Sudan" = (some ⟨12.8628, 30.2176⟩, []) ∧
    (c ≠ "Georgia" → c ≠ "Sudan" →
      (geocode_one geo c).2 = [GeoEvent.lookup c, GeoEvent.sleep] ∧
      (∀ loc, geo c = GeoOutcome.found loc → (geocode_one geo c).1 = some loc) ∧
      (geo c = GeoOutcome.missing → (geocode_one geo c).1 = none) ∧
      (geo c = GeoOutcome.raised → (geocode_one geo c).1 = none)) ∧
    (names.Nodup → c ∈ names → c ≠ "Georgia" → c ≠ "Sudan" →
      (geo_events geo names).count (GeoEvent.lookup c) = 1) := by
  refine ⟨by simp [geocode_one], by simp [geocode_one], ?_, ?_⟩
  · intro h1 h2
    refine ⟨by cases hgeo : geo c <;> simp [geocode_one, h1, h2, hgeo], ?_, ?_, ?_⟩
    · intro loc hloc; simp [geocode_one, h1, h2, hloc]
    · intro hloc; simp [geocode_one, h1, h2, hloc]
    · intro hloc; simp [geocode_one, h1, h2, hloc]
  · intro hnd hmem h1 h2
    induction names with
    | nil => cases hmem
    | cons n rest ih =>
        simp only [geo_events, List.map_cons, List.flatten_cons,
          List.count_append] at ih ⊢
        rw [geocode_one_events_count geo n h1 h2]
        rcases List.mem_cons.mp hmem with h | h
        · have hrest : c ∉ rest := by
            subst h
            exact (List.nodup_cons.mp hnd).1
          have hz := geo_events_count_zero geo h1 h2 rest hrest
          simp only [geo_events] at hz
          rw [if_pos h.symm, hz]
        · have hn : n ≠ c := fun e => (List.nodup_cons.mp hnd).1 (e ▸ h)
          rw [if_neg hn, Nat.zero_add]
          exact ih (List.nodup_cons.mp hnd).2 h

theorem C8_witness :
    geocode_one (fun _ => GeoOutcome.missing) "Georgia"
        = (some ⟨42.3154, 43.3569⟩, []) ∧
    (geocode_one (fun _ => GeoOutcome.missing) "Kenya").2
        = [GeoEvent.lookup "Kenya", GeoEvent.sleep] ∧
    (geocode_one (fun _ => GeoOutcome.missing) "Kenya").1 = none ∧
    (geo_events (fun _ => GeoOutcome.missing) ["Kenya", "Georgia"]).count
        (GeoEvent.lookup "Kenya") = 1 := by
  have h := C8_geocoding_per_country (fun _ => GeoOutcome.missing) "Kenya"
    ["Kenya", "Georgia"]
  exact ⟨h.1, (h.2.2.1 (by decide) (by decide)).1,
    (h.2.2.1 (by decide) (by decide)).2.2.1 rfl,
    h.2.2.2 (by decide) (by decide) (by decide) (by decide)⟩

/-- C9: every rendered trace carries the same `sizeref`, equal to
`2 * max_percent / 40 ^ 2` where `max_percent` is the maximum percentage
over all categories of the figure. -/
theorem C9_shared_sizeref (pts : List PlotPoint) (t1 t2 : Trace)
    (h1 : t1 ∈ traces pts) (h2 : t2 ∈ traces pts) :
    t1.sizeref = (max_percent pts).map (fun m => 2 * m / (40 : ℚ) ^ 2) ∧
    t1.sizeref = t2.sizeref := by
  obtain ⟨d1, hd1, rfl⟩ := List.mem_map.mp h1
  obtain ⟨d2, hd2, rfl⟩ := List.mem_map.mp h2
  exact ⟨rfl, rfl⟩

theorem C9_witness :
    (Trace.mk "Sensitive" [] none ∈ traces []) ∧
    (Trace.mk "Sensitive" [] none).sizeref
      = (max_percent []).map (fun m => 2 * m / (40 : ℚ) ^ 2) := by
  have hmem : Trace.mk "Sensitive" [] none ∈ traces [] :=
    List.mem_map.mpr ⟨"Sensitive", by decide, rfl⟩
  exact ⟨hmem, (C9_shared_sizeref [] _ _ hmem hmem).1⟩

/-- C10: two plot points of the same country share the latitude, and their
longitudes differ exactly by the difference of their per-type jitter
offsets: the base coordinate is resolved per country name and jitter only
moves the longitude. -/
theorem C10_same_country_geometry (cc : String → Option Coord)
    (rows : List (AggRow × String)) (p q : PlotPoint)
    (hp : p ∈ with_coords cc rows) (hq : q ∈ with_coords cc rows)
    (h : p.Country_of_sample_collection = q.Country_of_sample_collection) :
    p.lat = q.lat ∧
    p.lon - q.lon
      = jitter_map p.tbprofiler_dr_type - jitter_map q.tbprofiler_dr_type := by
  obtain ⟨a, _ha, rfl⟩ := List.mem_map.mp hp
  obtain ⟨b, _hb, rfl⟩ := List.mem_map.mp hq
  have hab : a.1.Country_of_sample_collection = b.1.Country_of_sample_collection := h
  constructor
  · show (apply_coords cc a.1).lat = (apply_coords cc b.1).lat
    simp [apply_coords, hab]
  · show (apply_coords cc a.1).lon - (apply_coords cc b.1).lon = _
    simp only [apply_coords, hab, plot_point_of]
    ring

theorem C10_witness :
    (plot_point_of (fun _ => none) (⟨"Kenya", "MDR-TB", 1, 2, 50⟩, "KEN")).lat
      = (plot_point_of (fun _ => none) (⟨"Kenya", "Sensitive", 1, 2, 50⟩, "KEN")).lat ∧
    (plot_point_of (fun _ => none) (⟨"Kenya", "MDR-TB", 1, 2, 50⟩, "KEN")).lon
        - (plot_point_of (fun _ => none) (⟨"Kenya", "Sensitive", 1, 2, 50⟩, "KEN")).lon
      = jitter_map "MDR-TB" - jitter_map "Sensitive" :=
  C10_same_country_geometry (fun _ => none)
    [(⟨"Kenya", "MDR-TB", 1, 2, 50⟩, "KEN"), (⟨"Kenya", "Sensitive", 1, 2, 50⟩, "KEN")]
    _ _
    (List.mem_map_of_mem _ (List.mem_cons_self _ _))
    (List.mem_map_of_mem _ (List.mem_cons_of_mem _ (List.mem_cons_self _ _)))
    rfl

end AmrVis
